import Mathlib

/-!
# Verification of the multicam_view camera-manager state machine

Shallow embedding of `src/camera_manager.py` (class `CameraManager`).

Modelling conventions:
* Python objects become explicit state records (`CamState`); every method is a
  Lean function from state (plus fault-injection flags for the fallible
  hardware operations) to a result and a new state.
* The single non-reentrant `threading.Lock` is modelled by a `lockHeld` flag:
  an attempt to acquire the lock while it is already held by the same (only)
  thread blocks forever, which we model by the `Option` result `none`
  ("the call never returns").  `some` results are ordinary returns.
* Fallible hardware operations are driven by Boolean fault flags supplied by
  the environment: `busFails` makes `smbus2` `write_byte_data` raise,
  `capFails` makes `picamera2` `capture_array` raise.  The
  `picam.stop()/configure()/start()` reconfiguration calls are modelled as
  reliable, matching the fault scope of the properties under scrutiny
  (the claims force the frame read and the bus writes to fail).
* Images produced by the capture orchestration are modelled symbolically by
  `CapturedImage` (a successfully captured frame tagged with the then-selected
  camera, the synthetic black error image with red error text, or the
  test-mode image); the cosmetic centre-cross drawing and RGBA→RGB conversion
  do not change which of these a result is.  The pure image post-processing
  functions (`create_grid_image`, `center_crop_image`) are modelled over a
  concrete pixel-grid image type `Img`.
-/

/-- A camera selector: an integer index (`cam i` for Python's `i`) or the
Python string `'all'` (hardware four-in-one mode). -/
inductive Selector where
  | cam (i : Nat)
  | all
deriving DecidableEq, Repr

/-- The two capture-device configurations (`video_config` / `still_config`). -/
inductive Mode where
  | video
  | still
deriving DecidableEq, Repr

/-- `CameraManager.CAMERA_COMMANDS`: the fixed selector → register-command
table.  Note that it has exactly the four integer entries 0–3 plus `'all'`,
independent of the configured `camera_count`. -/
def CAMERA_COMMANDS : Selector → Option Nat
  | .cam 0 => some 0x02
  | .cam 1 => some 0x12
  | .cam 2 => some 0x22
  | .cam 3 => some 0x32
  | .all => some 0x00
  | .cam _ => none

/-- The mutable state of a `CameraManager` instance (the instance fields the
claims depend on), plus the state of its owned resources. -/
structure CamState where
  /-- `self.camera_count`. -/
  camera_count : Nat
  /-- `self.test_mode`. -/
  test_mode : Bool
  /-- `self.current_camera` (`None` before any successful selection). -/
  current_camera : Option Selector := none
  /-- `self.is_cycling` (composite four-in-one preview active). -/
  is_cycling : Bool := false
  /-- Which of the two configurations the capture device currently has. -/
  mode : Mode := .video
  /-- Whether the capture device is started. -/
  running : Bool := true
  /-- Whether `self.lock` (a non-reentrant `threading.Lock`) is held. -/
  lockHeld : Bool := false
  /-- `self.picam` is not `None` (partial-initialisation modelling). -/
  picamPresent : Bool := true
  /-- `self.bus` is not `None`. -/
  busPresent : Bool := true
  /-- The I2C bus handle has not been closed. -/
  busOpen : Bool := true
deriving DecidableEq, Repr

/-- The body `_do_select_camera` of `CameraManager.select_camera` (runs with
the lock held).  Selector validation is membership in `CAMERA_COMMANDS`; in
test mode no hardware is touched; otherwise the single register write can
raise (modelled by `busFails`, and a write on an absent or closed bus handle
raises as well), which is caught and turned into `False` with no state
change.  On success `current_camera` is updated. -/
def do_select (s : CamState) (camera_index : Selector) (busFails : Bool) :
    Bool × CamState :=
  match CAMERA_COMMANDS camera_index with
  | none => (false, s)
  | some _ =>
    if s.test_mode then
      (true, { s with current_camera := some camera_index })
    else if !s.busPresent || !s.busOpen || busFails then
      (false, s)
    else
      (true, { s with current_camera := some camera_index })

/-- `CameraManager.select_camera`.  With `already_locked = false` it first
acquires `self.lock`; since the lock is non-reentrant, acquiring it while it
is already held blocks forever (`none`). -/
def select_camera (s : CamState) (camera_index : Selector) (busFails : Bool)
    (already_locked : Bool) : Option (Bool × CamState) :=
  if already_locked then
    some (do_select s camera_index busFails)
  else if s.lockHeld then
    none
  else
    some (do_select s camera_index busFails)

/-- `CameraManager.start_camera_cycle`: no-op if already cycling, otherwise
sets `is_cycling` and selects `'all'` (acquiring the lock). -/
def start_camera_cycle (s : CamState) (busFails : Bool) : Option CamState :=
  if s.is_cycling then
    some s
  else
    (select_camera { s with is_cycling := true } .all busFails false).map (·.2)

/-- `CameraManager.stop_camera_cycle`: clears `is_cycling`, then selects
camera 0 (acquiring the lock — note: without `already_locked`). -/
def stop_camera_cycle (s : CamState) (busFails : Bool) : Option CamState :=
  (select_camera { s with is_cycling := false } (.cam 0) busFails false).map (·.2)

/-- If selection fails, `_do_select_camera` leaves the state unchanged. -/
theorem do_select_false_eq (s : CamState) (sel : Selector) (b : Bool)
    (h : (do_select s sel b).1 = false) : (do_select s sel b).2 = s := by
  unfold do_select at *
  cases hc : CAMERA_COMMANDS sel <;> simp [hc] at h ⊢ <;>
    split at h <;> simp_all <;> split at h <;> simp_all

/-- C4: `select_camera` updates `current_camera` to the requested selector
exactly when it returns `True`; on any failure outcome (invalid selector, or
an I2C write error, including an absent or closed bus handle) it returns
`False` and the whole state — in particular `current_camera` — is unchanged. -/
theorem select_camera_updates_iff_success (s : CamState) (sel : Selector)
    (busFails : Bool) (hLock : s.lockHeld = false) :
    ∃ r s', select_camera s sel busFails false = some (r, s') ∧
      (r = true → s' = { s with current_camera := some sel }) ∧
      (r = false → s' = s) ∧
      (CAMERA_COMMANDS sel = none → r = false) ∧
      (s.test_mode = false → busFails = true → r = false) := by
  refine ⟨(do_select s sel busFails).1, (do_select s sel busFails).2, ?_, ?_, ?_, ?_, ?_⟩
  · simp [select_camera, hLock]
  · intro hr
    unfold do_select at *
    cases hc : CAMERA_COMMANDS sel <;> simp [hc] at hr ⊢ <;>
      split at hr <;> simp_all <;> split at hr <;> simp_all
  · intro hr
    exact do_select_false_eq s sel busFails hr
  · intro hc
    simp [do_select, hc]
  · intro ht hb
    unfold do_select
    cases hc : CAMERA_COMMANDS sel <;> simp [hc, ht, hb]

/-- A freshly initialised 4-camera hardware-mode manager state sitting in
composite (`'all'`) preview configuration. -/
def hwState : CamState :=
  { camera_count := 4, test_mode := false, current_camera := some .all }

/-- Witness for C4: camera_count 4, non-test manager, bus write forced to
fail: selection of camera 1 returns `False` and the state is unchanged. -/
theorem select_camera_updates_iff_success_witness :
    hwState.lockHeld = false ∧
    ∃ r s', select_camera hwState (.cam 1) true false = some (r, s') ∧
      (r = true → s' = { hwState with current_camera := some (.cam 1) }) ∧
      (r = false → s' = hwState) ∧
      (CAMERA_COMMANDS (.cam 1) = none → r = false) ∧
      (hwState.test_mode = false → (true : Bool) = true → r = false) :=
  ⟨rfl, select_camera_updates_iff_success _ _ _ rfl⟩

/-- A manager configured with only two cameras (`camera_count = 2`),
hardware mode, composite selected. -/
def twoCamState : CamState :=
  { camera_count := 2, test_mode := false, current_camera := some .all }

/-- Counterexample to C5: with `camera_count = 2`, the integer index 3 is
`≥ camera_count` and not `'all'`, yet `select_camera 3` succeeds (returns
`True`) and updates the selector — validation is membership in the fixed
four-entry `CAMERA_COMMANDS` table, not in `[0, camera_count)`. -/
theorem select_camera_beyond_count_accepted :
    twoCamState.camera_count = 2 ∧
    select_camera twoCamState (.cam 3) false false =
      some (true, { twoCamState with current_camera := some (.cam 3) }) := by
  exact ⟨rfl, rfl⟩

/-- C5 (amended): selector validation is membership in the fixed table
`CAMERA_COMMANDS` (integer entries 0–3 plus `'all'`), independent of
`camera_count`; for every integer index `i ≥ 4`, `select_camera` returns
`False` and leaves the entire state (in particular the current selector)
unchanged. -/
theorem select_camera_rejects_unmapped_index (s : CamState) (i : Nat)
    (busFails : Bool) (hLock : s.lockHeld = false) (hi : 4 ≤ i) :
    select_camera s (.cam i) busFails false = some (false, s) := by
  have hc : CAMERA_COMMANDS (.cam i) = none := by
    obtain ⟨n, rfl⟩ : ∃ n, i = n + 4 := ⟨i - 4, by omega⟩
    rfl
  simp [select_camera, hLock, do_select, hc]

/-- Witness for amended C5: index 7 on a 4-camera manager is rejected with
no state change. -/
theorem select_camera_rejects_unmapped_index_witness :
    hwState.lockHeld = false ∧ 4 ≤ 7 ∧
    select_camera hwState (.cam 7) false false = some (false, hwState) :=
  ⟨rfl, by decide, select_camera_rejects_unmapped_index hwState 7 false rfl (by decide)⟩

/-- `hwState` with the composite four-in-one preview active. -/
def cyclingHwState : CamState := { hwState with is_cycling := true }

/-- Counterexample to C9: when the I2C write of the re-selection fails,
`stop_camera_cycle` still clears the cycling flag but the current selector
remains `'all'` — the system is not left with current selector 0. -/
theorem stop_camera_cycle_bus_failure_keeps_selector :
    stop_camera_cycle cyclingHwState true = some hwState ∧
    hwState.is_cycling = false ∧
    hwState.current_camera = some .all ∧
    hwState.current_camera ≠ some (.cam 0) := by
  refine ⟨rfl, rfl, rfl, by decide⟩

/-- C9 (amended): `stop_camera_cycle` always clears `is_cycling` and issues
a selection of camera 0; the current selector is 0 afterwards whenever that
selection succeeds (always in test mode, and in hardware mode whenever the
bus handle is live and the write does not fail); on a bus failure the
previous selector is retained. -/
theorem stop_camera_cycle_spec (s : CamState) (busFails : Bool)
    (hLock : s.lockHeld = false) :
    ∃ s', stop_camera_cycle s busFails = some s' ∧
      s'.is_cycling = false ∧
      (s.test_mode = true → s'.current_camera = some (.cam 0)) ∧
      (s.busPresent = true → s.busOpen = true → busFails = false →
        s'.current_camera = some (.cam 0)) ∧
      (s'.current_camera = some (.cam 0) ∨ s'.current_camera = s.current_camera) := by
  unfold stop_camera_cycle select_camera do_select
  simp only [hLock]
  by_cases ht : s.test_mode <;>
    by_cases hbp : s.busPresent <;>
      by_cases hbo : s.busOpen <;>
        cases busFails <;>
          simp [CAMERA_COMMANDS, ht, hbp, hbo]

/-- Witness for amended C9: stopping the composite preview on a healthy
4-camera hardware manager ends with cycling off and camera 0 selected. -/
theorem stop_camera_cycle_spec_witness :
    cyclingHwState.lockHeld = false ∧
    ∃ s', stop_camera_cycle cyclingHwState false = some s' ∧
      s'.is_cycling = false ∧
      (cyclingHwState.test_mode = true → s'.current_camera = some (.cam 0)) ∧
      (cyclingHwState.busPresent = true → cyclingHwState.busOpen = true →
        false = false → s'.current_camera = some (.cam 0)) ∧
      (s'.current_camera = some (.cam 0) ∨
        s'.current_camera = cyclingHwState.current_camera) :=
  ⟨rfl, stop_camera_cycle_spec cyclingHwState false rfl⟩


/-- Symbolic model of the images the capture orchestration produces.
`frame c` is a successfully captured frame, tagged with the camera that was
recorded as selected when `capture_array` ran (the centre cross and any
RGBA→RGB conversion do not change which constructor a result is);
`errorImage` is the synthetic black 640×480 image with red error text built
on a capture failure; `testImage i` is the solid-colour test-mode image
(index 3 uses a different colour in `capture_all_cameras`). -/
inductive CapturedImage where
  | frame (cam : Option Selector)
  | errorImage
  | testImage (i : Nat)
deriving DecidableEq, Repr

/-- Operations issued to the capture device, recorded as a trace. -/
inductive HwOp where
  | stopDev
  | configure (m : Mode)
  | startDev
  | captureArray
deriving DecidableEq, Repr

/-- The picam operation sequence of a full (non-test) `capture_image` body:
switch to Still, read a frame, switch back to Video.  Both the success path
and the capture-failure path issue exactly this sequence (on the failure
path the caught `capture_array` exception is replaced by the error image and
execution falls through to the same revert-to-Video block). -/
def captureTrace : List HwOp :=
  [.stopDev, .configure .still, .startDev, .captureArray,
   .stopDev, .configure .video, .startDev]

/-- The optional explicit selection at the top of `capture_image`
(`if camera_index is not None: self.select_camera(camera_index,
already_locked=True)`).  Its Boolean result is discarded by the caller. -/
def postSelect (s : CamState) (camera_index : Option Selector) (busFails : Bool) :
    CamState :=
  match camera_index with
  | some sel => (do_select s sel busFails).2
  | none => s

/-- `CameraManager.capture_image`.  Fault flags: `selFails` — the bus write
of the optional explicit selection fails; `capFails` — `capture_array`
raises (caught, replaced by the synthetic error image).  `none` means the
call never returns: the body runs inside `with self.lock`, and when the
composite preview is active it calls `stop_camera_cycle`, whose
`select_camera(0)` (issued without `already_locked=True`) re-acquires the
held non-reentrant lock and blocks forever — before any device or bus
operation; for the same reason the `finally`-block `start_camera_cycle` is
unreachable (it only runs when `was_cycling` was true, in which case the
call already hung).  Lock acquisition at entry and release at exit cancel
out; device reconfiguration (`stop()/configure()/start()`) is modelled as
reliable, matching the claims' fault scope. -/
def capture_image (s0 : CamState) (camera_index : Option Selector)
    (selFails capFails : Bool) :
    Option (CapturedImage × CamState × List HwOp) :=
  if s0.lockHeld then none
  else if s0.is_cycling then none
  else if (postSelect s0 camera_index selFails).test_mode then
    some (.testImage 0, postSelect s0 camera_index selFails, [])
  else
    some (if capFails then .errorImage
          else .frame (postSelect s0 camera_index selFails).current_camera,
          { postSelect s0 camera_index selFails with mode := .video },
          captureTrace)

/-- `_do_select_camera` changes nothing but (possibly) `current_camera`. -/
theorem do_select_state (s : CamState) (sel : Selector) (b : Bool) :
    ∃ c, (do_select s sel b).2 = { s with current_camera := c } := by
  unfold do_select
  cases CAMERA_COMMANDS sel with
  | none => exact ⟨s.current_camera, rfl⟩
  | some cmd =>
    dsimp only
    split
    · exact ⟨some sel, rfl⟩
    · split
      · exact ⟨s.current_camera, rfl⟩
      · exact ⟨some sel, rfl⟩

/-- `postSelect` changes nothing but (possibly) `current_camera`. -/
theorem postSelect_state (s : CamState) (ci : Option Selector) (b : Bool) :
    ∃ c, postSelect s ci b = { s with current_camera := c } := by
  cases ci with
  | none => exact ⟨s.current_camera, rfl⟩
  | some sel => exact do_select_state s sel b

/-- C1: in hardware (non-test) mode, every `capture_image` call that
returns — whatever the outcome, including when the underlying
`capture_array` frame read is forced to raise — leaves the capture device
configured in Video mode, and its device-operation trace contains the
revert-to-Video reconfiguration: the revert executes on the success path
and on the capture-failure path alike. -/
theorem capture_image_ends_in_video (s : CamState) (ci : Option Selector)
    (selFails capFails : Bool) (hTest : s.test_mode = false)
    (r : CapturedImage × CamState × List HwOp)
    (hr : capture_image s ci selFails capFails = some r) :
    r.2.1.mode = Mode.video ∧ HwOp.configure Mode.video ∈ r.2.2 := by
  unfold capture_image at hr
  by_cases hL : s.lockHeld = true
  · rw [if_pos hL] at hr
    exact absurd hr (by simp)
  · rw [if_neg hL] at hr
    by_cases hC : s.is_cycling = true
    · rw [if_pos hC] at hr
      exact absurd hr (by simp)
    · rw [if_neg hC] at hr
      obtain ⟨c, hc⟩ := postSelect_state s ci selFails
      rw [hc] at hr
      rw [if_neg (by simp [hTest])] at hr
      rw [Option.some_inj] at hr
      subst hr
      exact ⟨rfl, by simp [captureTrace]⟩

/-- Witness for C1: a non-cycling hardware manager with `capture_array`
forced to fail: the call returns, ends in Video mode, and the revert is in
its trace. -/
theorem capture_image_ends_in_video_witness :
    hwState.test_mode = false ∧
    capture_image hwState none false true =
      some (.errorImage, { hwState with mode := .video }, captureTrace) ∧
    ((CapturedImage.errorImage, { hwState with mode := Mode.video },
        captureTrace) :
      CapturedImage × CamState × List HwOp).2.1.mode = Mode.video ∧
    HwOp.configure Mode.video ∈
      ((CapturedImage.errorImage, { hwState with mode := Mode.video },
          captureTrace) :
        CapturedImage × CamState × List HwOp).2.2 :=
  ⟨rfl, rfl, capture_image_ends_in_video hwState none false true rfl _ rfl⟩

/-- C3 (failing half): `capture_image` called while the composite preview is
active never returns — `stop_camera_cycle`'s `select_camera(0)` (issued
without `already_locked=True`) blocks forever re-acquiring the non-reentrant
lock already held by `capture_image` itself.  Evaluation of the model at the
failing input: a healthy hardware manager with `is_cycling = True`, no
explicit index, no injected faults. -/
theorem capture_image_deadlocks_when_cycling :
    capture_image cyclingHwState none false false = none := rfl

/-- C10: when `capture_image` is called with an explicit camera index and
the selection fails (the Boolean result of `select_camera` is discarded),
the call silently proceeds: it returns the frame captured from the
previously selected camera, the recorded selector is unchanged, the result
is not the error image, and the returned value is exactly what a
`capture_image` call without any index returns — the caller gets no
indication that the requested camera was not selected. -/
theorem capture_image_ignores_select_failure (s : CamState) (sel : Selector)
    (selFails : Bool) (hL : s.lockHeld = false) (hC : s.is_cycling = false)
    (hT : s.test_mode = false)
    (hFail : (do_select s sel selFails).1 = false) :
    capture_image s (some sel) selFails false =
      some (.frame s.current_camera, { s with mode := .video }, captureTrace) ∧
    CapturedImage.frame s.current_camera ≠ .errorImage ∧
    capture_image s (some sel) selFails false =
      capture_image s none false false := by
  have hps : postSelect s (some sel) selFails = s :=
    do_select_false_eq s sel selFails hFail
  have h1 : capture_image s (some sel) selFails false =
      some (.frame s.current_camera, { s with mode := .video }, captureTrace) := by
    unfold capture_image
    rw [if_neg (by simp [hL]), if_neg (by simp [hC]), hps,
      if_neg (by simp [hT])]
    rfl
  have h2 : capture_image s none false false =
      some (.frame s.current_camera, { s with mode := .video }, captureTrace) := by
    unfold capture_image
    rw [if_neg (by simp [hL]), if_neg (by simp [hC])]
    show (if s.test_mode = true then _ else _) = _
    rw [if_neg (by simp [hT])]
    rfl
  refine ⟨h1, by simp, h1.trans h2.symm⟩

/-- Witness for C10: requesting the unmapped camera index 9 on a healthy
non-cycling hardware manager whose selector is `'all'`: the selection fails,
yet the capture proceeds and returns a plain frame from `'all'`. -/
theorem capture_image_ignores_select_failure_witness :
    hwState.lockHeld = false ∧ hwState.is_cycling = false ∧
    hwState.test_mode = false ∧
    (do_select hwState (.cam 9) false).1 = false ∧
    (capture_image hwState (some (.cam 9)) false false =
      some (.frame hwState.current_camera,
            { hwState with mode := .video }, captureTrace) ∧
     CapturedImage.frame hwState.current_camera ≠ .errorImage ∧
     capture_image hwState (some (.cam 9)) false false =
      capture_image hwState none false false) :=
  ⟨rfl, rfl, rfl, rfl,
    capture_image_ignores_select_failure hwState (.cam 9) false rfl rfl rfl rfl⟩

/-- The per-camera loop of `capture_all_cameras`: for each index in order,
select it (`already_locked=True`, Boolean result discarded), then read a
frame; a raised `capture_array` (`capFails i`) is caught and replaced by the
synthetic black error image, and the burst continues with the next index. -/
def captureLoop (selFails capFails : Nat → Bool) :
    List Nat → CamState → List CapturedImage × CamState
  | [], s => ([], s)
  | i :: rest, s =>
    let s' := (do_select s (.cam i) (selFails i)).2
    let tail := captureLoop selFails capFails rest s'
    ((if capFails i then CapturedImage.errorImage
      else CapturedImage.frame s'.current_camera) :: tail.1, tail.2)

/-- The `finally` block of `capture_all_cameras`: restart the composite
preview if (and only if) it was active before the call. -/
def restoreCycle (was_cycling b : Bool) (s : CamState) : Option CamState :=
  if was_cycling then start_camera_cycle s b else some s

/-- Everything `capture_all_cameras` does after the initial preview-stop
phase, starting from the state `s1` that phase produced.  In order: the
test-mode early return (before the lock is taken); the `with self.lock`
acquisition; the Still-mode reconfiguration (whose failure sends control to
the outer `except`, filling the still-empty result list with `camera_count`
error images); the per-camera loop; the revert to Video; and — in the
`finally` block, after the lock is back down — the preview restore. -/
def capture_all_body (was_cycling : Bool) (selFails capFails : Nat → Bool)
    (stillConfigFails bStart : Bool) (s1 : CamState) :
    Option (List CapturedImage × CamState) :=
  if s1.test_mode then
    (restoreCycle was_cycling bStart s1).map
      (fun s2 => ((List.range s1.camera_count).map CapturedImage.testImage, s2))
  else if s1.lockHeld then none
  else if stillConfigFails then
    (restoreCycle was_cycling bStart s1).map
      (fun s2 => ((List.range s1.camera_count).map
        (fun _ => CapturedImage.errorImage), s2))
  else
    (restoreCycle was_cycling bStart
        { (captureLoop selFails capFails (List.range s1.camera_count)
            { s1 with mode := .still }).2 with mode := .video }).map
      (fun s2 => ((captureLoop selFails capFails (List.range s1.camera_count)
          { s1 with mode := .still }).1, s2))

/-- `CameraManager.capture_all_cameras`.  Fault flags: `selFails i` /
`capFails i` — the bus write selecting camera `i` / its `capture_array`
raise; `stillConfigFails` — the initial reconfiguration to Still mode
raises (sending control to the outer `except`, which fills the still-empty
result list with `camera_count` error images); `bStop` / `bStart` — bus
writes inside `stop_camera_cycle` / the `finally` `start_camera_cycle`.
Unlike `capture_image`, the preview is stopped *before* the exclusive lock
is taken and restarted *after* it is released, so no self-deadlock arises;
`none` only results from calling while the lock is somehow already held.
The final revert to Video mode is modelled as reliable. -/
def capture_all_cameras (s0 : CamState) (selFails capFails : Nat → Bool)
    (stillConfigFails bStop bStart : Bool) :
    Option (List CapturedImage × CamState) :=
  (if s0.is_cycling then stop_camera_cycle s0 bStop else some s0).bind
    (capture_all_body s0.is_cycling selFails capFails stillConfigFails bStart)

theorem captureLoop_length (selFails capFails : Nat → Bool) :
    ∀ (l : List Nat) (s : CamState),
      (captureLoop selFails capFails l s).1.length = l.length := by
  intro l
  induction l with
  | nil => intro s; rfl
  | cons i rest ih => intro s; simp [captureLoop, ih]

theorem captureLoop_get_fail (selFails capFails : Nat → Bool) :
    ∀ (l : List Nat) (s : CamState) (k : Nat) (hk : k < l.length),
      capFails (l.get ⟨k, hk⟩) = true →
      (captureLoop selFails capFails l s).1[k]? = some CapturedImage.errorImage := by
  intro l
  induction l with
  | nil => intro s k hk; simp at hk
  | cons i rest ih =>
    intro s k hk hcf
    cases k with
    | zero =>
      have hcf' : capFails i = true := hcf
      simp [captureLoop, hcf']
    | succ k' =>
      have hk' : k' < rest.length := by simpa using hk
      show ((if capFails i then CapturedImage.errorImage
        else CapturedImage.frame
          ((do_select s (.cam i) (selFails i)).2).current_camera) ::
        (captureLoop selFails capFails rest
          ((do_select s (.cam i) (selFails i)).2)).1)[k' + 1]? =
        some CapturedImage.errorImage
      rw [List.getElem?_cons_succ]
      exact ih _ k' hk' (by simpa using hcf)

theorem captureLoop_get_ok (selFails capFails : Nat → Bool) :
    ∀ (l : List Nat) (s : CamState) (k : Nat) (hk : k < l.length),
      capFails (l.get ⟨k, hk⟩) = false →
      ∃ c, (captureLoop selFails capFails l s).1[k]? =
        some (CapturedImage.frame c) := by
  intro l
  induction l with
  | nil => intro s k hk; simp at hk
  | cons i rest ih =>
    intro s k hk hcf
    cases k with
    | zero =>
      have hcf' : capFails i = false := hcf
      exact ⟨((do_select s (.cam i) (selFails i)).2).current_camera,
        by simp [captureLoop, hcf']⟩
    | succ k' =>
      have hk' : k' < rest.length := by simpa using hk
      obtain ⟨c, hc⟩ := ih ((do_select s (.cam i) (selFails i)).2) k' hk'
        (by simpa using hcf)
      refine ⟨c, ?_⟩
      show ((if capFails i then CapturedImage.errorImage
        else CapturedImage.frame
          ((do_select s (.cam i) (selFails i)).2).current_camera) ::
        (captureLoop selFails capFails rest
          ((do_select s (.cam i) (selFails i)).2)).1)[k' + 1]? =
        some (CapturedImage.frame c)
      rw [List.getElem?_cons_succ]
      exact hc

/-- The capture loop changes nothing but (possibly) `current_camera`. -/
theorem captureLoop_state (selFails capFails : Nat → Bool) :
    ∀ (l : List Nat) (s : CamState),
      ∃ c, (captureLoop selFails capFails l s).2 = { s with current_camera := c } := by
  intro l
  induction l with
  | nil => intro s; exact ⟨s.current_camera, rfl⟩
  | cons i rest ih =>
    intro s
    obtain ⟨c1, h1⟩ := do_select_state s (.cam i) (selFails i)
    obtain ⟨c2, h2⟩ := ih ((do_select s (.cam i) (selFails i)).2)
    refine ⟨c2, ?_⟩
    show (captureLoop selFails capFails rest
      ((do_select s (.cam i) (selFails i)).2)).2 = _
    rw [h2, h1]

/-- The preview-stop phase at the top of a capture operation: when it
completes, it has cleared `is_cycling` and at most changed the selector. -/
theorem stop_phase_some (s : CamState) (b : Bool) (hL : s.lockHeld = false) :
    ∃ c, (if s.is_cycling then stop_camera_cycle s b else some s) =
      some { s with is_cycling := false, current_camera := c } := by
  by_cases hC : s.is_cycling = true
  · rw [if_pos hC]
    obtain ⟨c, hc⟩ := do_select_state { s with is_cycling := false } (.cam 0) b
    refine ⟨c, ?_⟩
    unfold stop_camera_cycle select_camera
    rw [if_neg (by simp), if_neg (by simp [hL])]
    rw [Option.map_some', hc]
  · rw [if_neg hC]
    refine ⟨s.current_camera, ?_⟩
    have hC' : s.is_cycling = false := by simpa using hC
    cases s
    simp_all

theorem start_camera_cycle_some (s : CamState) (b : Bool)
    (hL : s.lockHeld = false) (hC : s.is_cycling = false) :
    ∃ c, start_camera_cycle s b =
      some { s with is_cycling := true, current_camera := c } := by
  obtain ⟨c, hc⟩ := do_select_state { s with is_cycling := true } .all b
  refine ⟨c, ?_⟩
  unfold start_camera_cycle select_camera
  rw [if_neg (by simp [hC]), if_neg (by simp), if_neg (by simp [hL])]
  rw [Option.map_some', hc]

/-- The restore phase (`finally`) returns, and leaves the cycling flag equal
to what it was before the operation. -/
theorem restoreCycle_some (was_cycling b : Bool) (s : CamState)
    (hL : s.lockHeld = false) (hC : s.is_cycling = false) :
    ∃ s', restoreCycle was_cycling b s = some s' ∧
      s'.is_cycling = was_cycling := by
  cases was_cycling with
  | false => exact ⟨s, by simp [restoreCycle], hC⟩
  | true =>
    obtain ⟨c, hc⟩ := start_camera_cycle_some s b hL hC
    refine ⟨{ s with is_cycling := true, current_camera := c }, ?_, rfl⟩
    simpa [restoreCycle] using hc

/-- Workhorse for C2: after the preview-stop phase, the burst always returns
a list of exactly `camera_count` images; outside test mode, with the
Still-mode reconfiguration succeeding, slot `k` is the synthetic error image
exactly when camera `k`'s capture was forced to fail, and a plain captured
frame otherwise.  The final cycling flag equals the pre-call one. -/
theorem capture_all_body_spec (was bStart : Bool) (selFails capFails : Nat → Bool)
    (scf : Bool) (s1 : CamState) (hL : s1.lockHeld = false)
    (hC : s1.is_cycling = false) :
    ∃ imgs s', capture_all_body was selFails capFails scf bStart s1 =
        some (imgs, s') ∧
      imgs.length = s1.camera_count ∧
      s'.is_cycling = was ∧
      (s1.test_mode = false → scf = false →
        ∀ k, k < s1.camera_count →
          (capFails k = true → imgs[k]? = some CapturedImage.errorImage) ∧
          (capFails k = false → imgs[k]? ≠ some CapturedImage.errorImage ∧
            ∃ c, imgs[k]? = some (CapturedImage.frame c))) := by
  by_cases hT : s1.test_mode = true
  · obtain ⟨s2, h2, hcy⟩ := restoreCycle_some was bStart s1 hL hC
    refine ⟨(List.range s1.camera_count).map CapturedImage.testImage, s2,
      ?_, by simp, hcy, ?_⟩
    · unfold capture_all_body
      rw [if_pos hT, h2, Option.map_some']
    · intro hT'
      rw [hT'] at hT
      exact absurd hT (by simp)
  · have hT' : s1.test_mode = false := by simpa using hT
    by_cases hS : scf = true
    · obtain ⟨s2, h2, hcy⟩ := restoreCycle_some was bStart s1 hL hC
      refine ⟨(List.range s1.camera_count).map (fun _ => CapturedImage.errorImage),
        s2, ?_, by simp, hcy, ?_⟩
      · unfold capture_all_body
        rw [if_neg (by simp [hT']), if_neg (by simp [hL]), if_pos hS, h2,
          Option.map_some']
      · intro _ hS'
        rw [hS'] at hS
        exact absurd hS (by simp)
    · have hS' : scf = false := by simpa using hS
      obtain ⟨cL, hcL⟩ := captureLoop_state selFails capFails
        (List.range s1.camera_count) { s1 with mode := .still }
      obtain ⟨s2, h2, hcy⟩ := restoreCycle_some was bStart
        { (captureLoop selFails capFails (List.range s1.camera_count)
            { s1 with mode := .still }).2 with mode := .video }
        (by rw [hcL]; exact hL) (by rw [hcL]; exact hC)
      refine ⟨(captureLoop selFails capFails (List.range s1.camera_count)
          { s1 with mode := .still }).1, s2, ?_, ?_, hcy, ?_⟩
      · unfold capture_all_body
        rw [if_neg (by simp [hT']), if_neg (by simp [hL]),
          if_neg (by simp [hS']), h2, Option.map_some']
      · rw [captureLoop_length]
        simp
      · intro _ _ k hk
        have hk' : k < (List.range s1.camera_count).length := by simpa using hk
        constructor
        · intro hcf
          exact captureLoop_get_fail selFails capFails
            (List.range s1.camera_count) { s1 with mode := .still } k hk'
            (by simpa using hcf)
        · intro hcf
          obtain ⟨c, hc⟩ := captureLoop_get_ok selFails capFails
            (List.range s1.camera_count) { s1 with mode := .still } k hk'
            (by simpa using hcf)
          exact ⟨by rw [hc]; simp, c, hc⟩

/-- C2: `capture_all_cameras` on a manager with `camera_count = N` returns a
list of exactly `N` images, whatever per-camera captures fail (and even when
the whole-burst Still reconfiguration fails); in hardware mode with the
burst set up, a slot whose capture was forced to fail holds the
distinguishable synthetic error image, and every other slot holds a plain
captured frame (never the error image) — the burst continues instead of
aborting. -/
theorem capture_all_cameras_spec (s : CamState) (selFails capFails : Nat → Bool)
    (stillConfigFails bStop bStart : Bool) (hL : s.lockHeld = false) :
    ∃ imgs s', capture_all_cameras s selFails capFails stillConfigFails bStop bStart =
        some (imgs, s') ∧
      imgs.length = s.camera_count ∧
      (s.test_mode = false → stillConfigFails = false →
        ∀ k, k < s.camera_count →
          (capFails k = true → imgs[k]? = some CapturedImage.errorImage) ∧
          (capFails k = false → imgs[k]? ≠ some CapturedImage.errorImage ∧
            ∃ c, imgs[k]? = some (CapturedImage.frame c))) := by
  obtain ⟨c1, h1⟩ := stop_phase_some s bStop hL
  obtain ⟨imgs, s', hbody, hlen, hcyc, hslots⟩ :=
    capture_all_body_spec s.is_cycling bStart selFails capFails stillConfigFails
      { s with is_cycling := false, current_camera := c1 } hL rfl
  refine ⟨imgs, s', ?_, hlen, hslots⟩
  unfold capture_all_cameras
  rw [h1, Option.some_bind]
  exact hbody

/-- Witness for C2: a healthy 4-camera hardware manager, camera 2's capture
forced to fail: 4 images come back, slot 2 is the error image, the others
are frames. -/
theorem capture_all_cameras_spec_witness :
    hwState.lockHeld = false ∧
    ∃ imgs s', capture_all_cameras hwState (fun _ => false)
        (fun k => decide (k = 2)) false false false = some (imgs, s') ∧
      imgs.length = hwState.camera_count ∧
      (hwState.test_mode = false → (false : Bool) = false →
        ∀ k, k < hwState.camera_count →
          ((decide (k = 2) : Bool) = true →
            imgs[k]? = some CapturedImage.errorImage) ∧
          ((decide (k = 2) : Bool) = false →
            imgs[k]? ≠ some CapturedImage.errorImage ∧
            ∃ c, imgs[k]? = some (CapturedImage.frame c))) :=
  ⟨rfl, capture_all_cameras_spec hwState (fun _ => false)
    (fun k => decide (k = 2)) false false false rfl⟩

/-- The half of C3 that does hold: `capture_all_cameras` stops the composite
preview before taking the lock and restarts it in its `finally` block after
releasing it, so when the preview was active before the call it is active
again on return, on success and failure paths alike. -/
theorem capture_all_cameras_restores_cycling (s : CamState)
    (selFails capFails : Nat → Bool) (scf bStop bStart : Bool)
    (hL : s.lockHeld = false) (hC : s.is_cycling = true) :
    ∃ r, capture_all_cameras s selFails capFails scf bStop bStart = some r ∧
      r.2.is_cycling = true := by
  obtain ⟨c1, h1⟩ := stop_phase_some s bStop hL
  obtain ⟨imgs, s', hbody, hlen, hcyc, hslots⟩ :=
    capture_all_body_spec s.is_cycling bStart selFails capFails scf
      { s with is_cycling := false, current_camera := c1 } hL rfl
  refine ⟨(imgs, s'), ?_, ?_⟩
  · unfold capture_all_cameras
    rw [h1, Option.some_bind]
    exact hbody
  · rw [hcyc]
    exact hC

/-- Colour-model tag of a PIL image (`'RGB'`, `'RGBA'`, anything else). -/
inductive PMode where
  | rgb
  | rgba
  | other
deriving DecidableEq, Repr

/-- Concrete pixel-grid model of a PIL image: dimensions, colour-model tag,
and a pixel lookup (abstract pixel value at `(x, y)`; only coordinates with
`x < width`, `y < height` are meaningful). -/
structure Img where
  width : Nat
  height : Nat
  mode : PMode := .rgb
  pix : Nat → Nat → Nat

/-- The RGB normalisation at the top of `create_grid_image`: any image whose
mode is not `'RGB'` is converted.  Conversion keeps the dimensions; at this
abstraction the pixel denotations are kept and the tag becomes `rgb`. -/
def toRGB (img : Img) : Img :=
  if img.mode = .rgb then img else { img with mode := .rgb }

/-- `PIL.Image.resize`: target dimensions, resampling abstracted as
nearest-neighbour (the equal-size grid property never takes this branch). -/
def resize (img : Img) (w h : Nat) : Img :=
  { width := w, height := h, mode := img.mode,
    pix := fun x y => img.pix (x * img.width / w) (y * img.height / h) }

/-- The per-quadrant size check of `create_grid_image`: resize an input iff
its size differs from the reference `(w, h)`. -/
def fitTo (img : Img) (w h : Nat) : Img :=
  if img.width = w ∧ img.height = h then img else resize img w h

/-- The typed failure of `create_grid_image`
(`ValueError(f"Expected 4 images, got {len(images)}")`). -/
inductive GridError where
  | valueError (got : Nat)
deriving DecidableEq, Repr

/-- `CameraManager.create_grid_image`: raises `ValueError` unless given
exactly 4 images; otherwise normalises all inputs to RGB, takes the first
image's size `(w, h)` as reference, resizes any input of a different size,
and pastes at `(0,0)`, `(w,0)`, `(0,h)`, `(w,h)` into a fresh `2w × 2h`
image.  (The `try` body cannot fail for well-formed inputs, so the
fallback-image `except` branch is unreachable at this abstraction.) -/
def create_grid_image (images : List Img) : Except GridError Img :=
  match images with
  | [i0, i1, i2, i3] =>
    .ok { width := 2 * (toRGB i0).width, height := 2 * (toRGB i0).height,
          mode := .rgb,
          pix := fun x y =>
            if y < (toRGB i0).height then
              (if x < (toRGB i0).width then
                (fitTo (toRGB i0) (toRGB i0).width (toRGB i0).height).pix x y
              else
                (fitTo (toRGB i1) (toRGB i0).width (toRGB i0).height).pix
                  (x - (toRGB i0).width) y)
            else
              (if x < (toRGB i0).width then
                (fitTo (toRGB i2) (toRGB i0).width (toRGB i0).height).pix
                  x (y - (toRGB i0).height)
              else
                (fitTo (toRGB i3) (toRGB i0).width (toRGB i0).height).pix
                  (x - (toRGB i0).width) (y - (toRGB i0).height)) }
  | l => .error (.valueError l.length)

/-- C6: given exactly 4 RGB images of one size `W × H`, `create_grid_image`
returns a `2W × 2H` image with input 0's pixels at `(0,0)`, input 1's at
`(W,0)`, input 2's at `(0,H)` and input 3's at `(W,H)`; given a list whose
length is not 4 it fails with the typed `ValueError` carrying that length,
rather than returning a fallback image. -/
theorem create_grid_image_spec (a b c d : Img) (W H : Nat) (l : List Img)
    (haw : a.width = W) (hah : a.height = H) (ham : a.mode = .rgb)
    (hbw : b.width = W) (hbh : b.height = H) (hbm : b.mode = .rgb)
    (hcw : c.width = W) (hch : c.height = H) (hcm : c.mode = .rgb)
    (hdw : d.width = W) (hdh : d.height = H) (hdm : d.mode = .rgb)
    (hl : l.length ≠ 4) :
    (∃ g, create_grid_image [a, b, c, d] = .ok g ∧
      g.width = 2 * W ∧ g.height = 2 * H ∧
      (∀ x y, x < W → y < H →
        g.pix x y = a.pix x y ∧
        g.pix (x + W) y = b.pix x y ∧
        g.pix x (y + H) = c.pix x y ∧
        g.pix (x + W) (y + H) = d.pix x y)) ∧
    create_grid_image l = .error (.valueError l.length) := by
  constructor
  · have hra : toRGB a = a := by simp [toRGB, ham]
    have hrb : toRGB b = b := by simp [toRGB, hbm]
    have hrc : toRGB c = c := by simp [toRGB, hcm]
    have hrd : toRGB d = d := by simp [toRGB, hdm]
    have hfa : fitTo a W H = a := by simp [fitTo, haw, hah]
    have hfb : fitTo b W H = b := by simp [fitTo, hbw, hbh]
    have hfc : fitTo c W H = c := by simp [fitTo, hcw, hch]
    have hfd : fitTo d W H = d := by simp [fitTo, hdw, hdh]
    have hg : create_grid_image [a, b, c, d] =
        .ok { width := 2 * W, height := 2 * H, mode := .rgb,
              pix := fun x y =>
                if y < H then
                  (if x < W then a.pix x y else b.pix (x - W) y)
                else
                  (if x < W then c.pix x (y - H) else d.pix (x - W) (y - H)) } := by
      simp only [create_grid_image, hra, hrb, hrc, hrd, haw, hah,
        hfa, hfb, hfc, hfd]
    refine ⟨_, hg, rfl, rfl, ?_⟩
    intro x y hx hy
    refine ⟨?_, ?_, ?_, ?_⟩
    · show (if y < H then (if x < W then a.pix x y else b.pix (x - W) y)
        else (if x < W then c.pix x (y - H) else d.pix (x - W) (y - H))) =
        a.pix x y
      rw [if_pos hy, if_pos hx]
    · show (if y < H then
          (if x + W < W then a.pix (x + W) y else b.pix (x + W - W) y)
        else (if x + W < W then c.pix (x + W) (y - H)
          else d.pix (x + W - W) (y - H))) = b.pix x y
      rw [if_pos hy, if_neg (by omega)]
      simp [Nat.add_sub_cancel]
    · show (if y + H < H then
          (if x < W then a.pix x (y + H) else b.pix (x - W) (y + H))
        else (if x < W then c.pix x (y + H - H)
          else d.pix (x - W) (y + H - H))) = c.pix x y
      rw [if_neg (by omega), if_pos hx]
      simp [Nat.add_sub_cancel]
    · show (if y + H < H then
          (if x + W < W then a.pix (x + W) (y + H) else b.pix (x + W - W) (y + H))
        else (if x + W < W then c.pix (x + W) (y + H - H)
          else d.pix (x + W - W) (y + H - H))) = d.pix x y
      rw [if_neg (by omega), if_neg (by omega)]
      simp [Nat.add_sub_cancel]
  · cases l with
    | nil => rfl
    | cons x1 t1 =>
      cases t1 with
      | nil => rfl
      | cons x2 t2 =>
        cases t2 with
        | nil => rfl
        | cons x3 t3 =>
          cases t3 with
          | nil => rfl
          | cons x4 t4 =>
            cases t4 with
            | nil => exact absurd rfl hl
            | cons x5 t5 => rfl

/-- Concrete 2×3 RGB test images for the grid witness. -/
def imgA : Img := { width := 2, height := 3, pix := fun x y => 100 + 10 * x + y }

def imgB : Img := { width := 2, height := 3, pix := fun x y => 200 + 10 * x + y }

def imgC : Img := { width := 2, height := 3, pix := fun x y => 300 + 10 * x + y }

def imgD : Img := { width := 2, height := 3, pix := fun x y => 400 + 10 * x + y }

/-- Witness for C6: four 2×3 images compose into a 4×6 grid with the four
quadrants in place, and the empty list is rejected with `ValueError`. -/
theorem create_grid_image_spec_witness :
    imgA.width = 2 ∧ imgA.height = 3 ∧ imgA.mode = PMode.rgb ∧
    imgB.width = 2 ∧ imgB.height = 3 ∧ imgB.mode = PMode.rgb ∧
    imgC.width = 2 ∧ imgC.height = 3 ∧ imgC.mode = PMode.rgb ∧
    imgD.width = 2 ∧ imgD.height = 3 ∧ imgD.mode = PMode.rgb ∧
    ([] : List Img).length ≠ 4 ∧
    ((∃ g, create_grid_image [imgA, imgB, imgC, imgD] = .ok g ∧
      g.width = 2 * 2 ∧ g.height = 2 * 3 ∧
      (∀ x y, x < 2 → y < 3 →
        g.pix x y = imgA.pix x y ∧
        g.pix (x + 2) y = imgB.pix x y ∧
        g.pix x (y + 3) = imgC.pix x y ∧
        g.pix (x + 2) (y + 3) = imgD.pix x y)) ∧
     create_grid_image ([] : List Img) =
       .error (.valueError ([] : List Img).length)) :=
  ⟨rfl, rfl, rfl, rfl, rfl, rfl, rfl, rfl, rfl, rfl, rfl, rfl, by decide,
    create_grid_image_spec imgA imgB imgC imgD 2 3 []
      rfl rfl rfl rfl rfl rfl rfl rfl rfl rfl rfl rfl (by decide)⟩

/-- `CONFIG["CROP_RESOLUTION"]`. -/
def CONFIG_CROP_RESOLUTION : Nat × Nat := (1775, 1160)

/-- The working part of `center_crop_image`, after the default-resolution
substitution: a safe no-op when the target is not strictly smaller than the
source in both axes, otherwise a crop to exactly `(tw, th)` whose box is
`(left, top, left+tw, top+th)` with `left = (width-tw)//2`,
`top = (height-th)//2` (a PIL crop maps result pixel `(x, y)` to source
pixel `(left+x, top+y)`).  The surrounding `try/except` (which would return
the original image) is unreachable for well-formed inputs. -/
def center_crop_run (img : Img) (tw th : Nat) : Img :=
  if tw ≥ img.width ∨ th ≥ img.height then img
  else
    { width := tw, height := th, mode := img.mode,
      pix := fun x y =>
        img.pix (x + (img.width - tw) / 2) (y + (img.height - th) / 2) }

/-- `CameraManager.center_crop_image`: if either target dimension is `None`,
both are replaced by `CONFIG["CROP_RESOLUTION"]`; then the centre crop. -/
def center_crop_image (img : Img) (target_width target_height : Option Nat) :
    Img :=
  match target_width, target_height with
  | some tw, some th => center_crop_run img tw th
  | _, _ => center_crop_run img CONFIG_CROP_RESOLUTION.1 CONFIG_CROP_RESOLUTION.2

/-- C7: with `tw ≥ width` or `th ≥ height`, `center_crop_image` returns the
original image unchanged (safe no-op, not an error); with both targets
strictly smaller, it returns an image of exactly `(tw, th)` whose pixels are
the source's shifted by `((width-tw)/2, (height-th)/2)` — a crop box
symmetric about the centre of the source up to the one-pixel rounding of
integer halving (each pair of opposite margins differs by at most 1). -/
theorem center_crop_image_spec (img : Img) (tw th : Nat) :
    (tw ≥ img.width ∨ th ≥ img.height →
      center_crop_image img (some tw) (some th) = img) ∧
    (tw < img.width → th < img.height →
      (center_crop_image img (some tw) (some th)).width = tw ∧
      (center_crop_image img (some tw) (some th)).height = th ∧
      (∀ x y, (center_crop_image img (some tw) (some th)).pix x y =
        img.pix (x + (img.width - tw) / 2) (y + (img.height - th) / 2)) ∧
      ((img.width - tw) - (img.width - tw) / 2 = (img.width - tw) / 2 ∨
       (img.width - tw) - (img.width - tw) / 2 = (img.width - tw) / 2 + 1) ∧
      ((img.height - th) - (img.height - th) / 2 = (img.height - th) / 2 ∨
       (img.height - th) - (img.height - th) / 2 = (img.height - th) / 2 + 1)) := by
  constructor
  · intro h
    simp only [center_crop_image, center_crop_run]
    rw [if_pos h]
  · intro h1 h2
    have hno : ¬(tw ≥ img.width ∨ th ≥ img.height) := by omega
    simp only [center_crop_image, center_crop_run]
    rw [if_neg hno]
    exact ⟨rfl, rfl, fun x y => rfl, by omega, by omega⟩

/-- Concrete 10×8 image for the crop witness. -/
def img0 : Img := { width := 10, height := 8, pix := fun x y => 100 * x + y }

/-- Witness for C7: cropping 10×8 to 4×5 gives exactly 4×5 with the pixels
shifted by `(3, 1)` and margins `3/3` and `1/2`; asking for 20×5 returns the
image unchanged. -/
theorem center_crop_image_spec_witness :
    (center_crop_image img0 (some 4) (some 5)).width = 4 ∧
    (center_crop_image img0 (some 4) (some 5)).height = 5 ∧
    (∀ x y, (center_crop_image img0 (some 4) (some 5)).pix x y =
      img0.pix (x + (img0.width - 4) / 2) (y + (img0.height - 5) / 2)) ∧
    ((img0.width - 4) - (img0.width - 4) / 2 = (img0.width - 4) / 2 ∨
     (img0.width - 4) - (img0.width - 4) / 2 = (img0.width - 4) / 2 + 1) ∧
    ((img0.height - 5) - (img0.height - 5) / 2 = (img0.height - 5) / 2 ∨
     (img0.height - 5) - (img0.height - 5) / 2 = (img0.height - 5) / 2 + 1) ∧
    center_crop_image img0 (some 20) (some 5) = img0 :=
  ⟨((center_crop_image_spec img0 4 5).2 (by decide) (by decide)).1,
   ((center_crop_image_spec img0 4 5).2 (by decide) (by decide)).2.1,
   ((center_crop_image_spec img0 4 5).2 (by decide) (by decide)).2.2.1,
   ((center_crop_image_spec img0 4 5).2 (by decide) (by decide)).2.2.2.1,
   ((center_crop_image_spec img0 4 5).2 (by decide) (by decide)).2.2.2.2,
   (center_crop_image_spec img0 20 5).1 (by decide)⟩

/-- The part of `cleanup` after the cycle-stop: the test-mode early exit,
then `picam.stop()` and `bus.close()` each under its own `try/except`
(a raise is caught and logged; a missing handle skips the call). -/
def cleanup_post (stopFails closeFails : Bool) (s1 : CamState) :
    Option CamState :=
  if s1.test_mode then some s1
  else
    some { s1 with
      running := if s1.picamPresent ∧ stopFails = false then false
                 else s1.running,
      busOpen := if s1.busPresent ∧ closeFails = false then false
                 else s1.busOpen }

/-- `CameraManager.cleanup`: the whole body sits in an outer `try/except`
that swallows anything; `stop_camera_cycle` runs first when cycling is
active (its bus write may fail — caught inside `select_camera`), then the
two handle releases.  The only way the call can fail to return is the
nested lock acquisition inside `stop_camera_cycle` — never the case from
the finalization path, where the lock is free. -/
def cleanup (s : CamState) (stopFails closeFails busFails : Bool) :
    Option CamState :=
  (if s.is_cycling then stop_camera_cycle s busFails else some s).bind
    (cleanup_post stopFails closeFails)

theorem cleanup_post_some (a b : Bool) (t : CamState) :
    ∃ t', cleanup_post a b t = some t' ∧ t'.lockHeld = t.lockHeld ∧
      t'.is_cycling = t.is_cycling := by
  by_cases ht : t.test_mode = true
  · exact ⟨t, by simp [cleanup_post, ht], rfl, rfl⟩
  · refine ⟨{ t with
      running := if t.picamPresent ∧ a = false then false else t.running,
      busOpen := if t.busPresent ∧ b = false then false else t.busOpen },
      ?_, rfl, rfl⟩
    unfold cleanup_post
    rw [if_neg ht]

/-- C8: `cleanup` always returns (never raises), for every mode (hardware or
test), every partial-initialisation configuration (absent picam and/or bus
handles), and every combination of injected failures of `picam.stop()`,
`bus.close()` and the cycle-stop's bus write; and calling it again after a
completed first call — with any fresh failure combination — also returns. -/
theorem cleanup_never_raises (s : CamState) (f1 f2 f3 g1 g2 g3 : Bool)
    (hL : s.lockHeld = false) :
    ∃ s', cleanup s f1 f2 f3 = some s' ∧
      ∃ s'', cleanup s' g1 g2 g3 = some s'' := by
  obtain ⟨c1, h1⟩ := stop_phase_some s f3 hL
  obtain ⟨s1', hp1, hpl1, hpc1⟩ := cleanup_post_some f1 f2
    { s with is_cycling := false, current_camera := c1 }
  refine ⟨s1', ?_, ?_⟩
  · unfold cleanup
    rw [h1, Option.some_bind]
    exact hp1
  · have hc' : s1'.is_cycling = false := by rw [hpc1]
    obtain ⟨s2', hp2, _, _⟩ := cleanup_post_some g1 g2 s1'
    refine ⟨s2', ?_⟩
    unfold cleanup
    rw [if_neg (by simp [hc']), Option.some_bind]
    exact hp2

/-- A partially initialised manager: hardware mode, neither the picam nor
the bus handle was created, composite preview flag still set. -/
def partialState : CamState :=
  { camera_count := 4, test_mode := false, is_cycling := true,
    picamPresent := false, busPresent := false }

/-- Witness for C8: cleanup of a partially initialised, still-cycling
manager with every injected failure on: both the first and a repeated call
return. -/
theorem cleanup_never_raises_witness :
    partialState.lockHeld = false ∧
    ∃ s', cleanup partialState true true true = some s' ∧
      ∃ s'', cleanup s' true true true = some s'' :=
  ⟨rfl, cleanup_never_raises partialState true true true true true true rfl⟩
